import Mathlib

/-!
Verification development for the EmailWEBAPI token-lifecycle service.

The service (src/server.js, with the extended variant in src/unnamed/part_000)
keeps an in-memory `Map` from opaque token strings to verification records and
exposes HTTP handlers to mint, consume, inspect and revoke tokens.  We embed
the record type, the map (as an association list whose operations mirror the
JavaScript `Map` methods used: `get`, `set`, `delete`, `has`, `size`), and the
request handlers as pure Lean functions.  Times are milliseconds since the
epoch (`Date.now()`), modelled as `Nat`; the fresh UUID and the outcome of the
external mail call are explicit parameters of the handlers that use them.
-/

namespace EmailApi

/-- Truthiness of an optional JavaScript string: `undefined` and `""` are
falsy, every non-empty string is truthy. -/
def strFalsy : Option String → Bool
  | none => true
  | some s => s.isEmpty

/-- Embedding of the JavaScript expression `x || null` for an optional
string `x`. -/
def jsOrNull (o : Option String) : Option String :=
  if strFalsy o then none else o

/-- Check whether the list `pat` is an initial segment of `s`
(character-by-character). -/
def charsStart : List Char → List Char → Bool
  | [], _ => true
  | _ :: _, [] => false
  | p :: ps, c :: cs => p == c && charsStart ps cs

/-- Check whether `pat` occurs contiguously somewhere in `s`. -/
def charsContain (pat : List Char) : List Char → Bool
  | [] => charsStart pat []
  | c :: cs => charsStart pat (c :: cs) || charsContain pat cs

/-- Embedding of JavaScript `s.includes(pat)` (substring containment). -/
def strIncludes (s pat : String) : Bool :=
  charsContain pat.data s.data

/-- JSON values appearing in the service's response bodies.  `time n` stands
for the ISO-8601 rendering `new Date(n).toISOString()` of the millisecond
timestamp `n` (the rendering itself is injective, and no property below
inspects its text). -/
inductive JVal where
  | str (s : String)
  | bool (b : Bool)
  | nat (n : Nat)
  | time (ms : Nat)
  | null
deriving Repr, DecidableEq

/-- A JSON object body: fields in the order the source writes them. -/
abbrev JBody := List (String × JVal)

/-- An HTTP response: status code plus JSON body. -/
structure HttpResponse where
  status : Nat
  body : JBody
deriving Repr, DecidableEq

/-- Render an optional string as a JSON value (`null` when absent), as
`res.json` does for a field holding `string | null`. -/
def optJ : Option String → JVal
  | none => .null
  | some s => .str s

/-- VerificationRecord: the value stored in `verificationTokens` for a token
(server.js lines 45-50). -/
structure Record where
  email : String
  userId : Option String
  expiresAt : Nat
  verified : Bool
deriving Repr, DecidableEq

/-- The token store: the `verificationTokens` map, as an association list
from token strings to records.  JavaScript `Map` keys are unique; the
operations below mirror `Map.get`, `Map.set`, `Map.delete`, `Map.has`,
`Map.size` under that discipline. -/
abbrev Store := List (String × Record)

/-- Embedding of `verificationTokens.get(token)`. -/
def Store.get : Store → String → Option Record
  | [], _ => none
  | (k, r) :: rest, t => if k = t then some r else Store.get rest t

/-- Embedding of `verificationTokens.set(token, record)`: replace the entry
in place when the key is present, append otherwise. -/
def Store.set : Store → String → Record → Store
  | [], t, r => [(t, r)]
  | (k, x) :: rest, t, r =>
      if k = t then (t, r) :: rest else (k, x) :: Store.set rest t r

/-- Embedding of `verificationTokens.delete(token)`: remove the entry with
that key (on a map with unique keys, removing every match coincides with
removing the one entry). -/
def Store.erase : Store → String → Store
  | [], _ => []
  | (k, x) :: rest, t =>
      if k = t then Store.erase rest t else (k, x) :: Store.erase rest t

/-- Embedding of `verificationTokens.has(token)`. -/
def Store.hasTok (s : Store) (t : String) : Bool :=
  (Store.get s t).isSome

/-- Embedding of `verificationTokens.size`. -/
def Store.size (s : Store) : Nat :=
  s.length

theorem Store.get_set_self (s : Store) (t : String) (r : Record) :
    Store.get (Store.set s t r) t = some r := by
  induction s with
  | nil => simp [Store.set, Store.get]
  | cons hd tl ih =>
    obtain ⟨k, x⟩ := hd
    by_cases h : k = t
    · simp [Store.set, Store.get, h]
    · simp [Store.set, Store.get, h, ih]

theorem Store.get_set_ne (s : Store) (t t' : String) (r : Record)
    (h : t' ≠ t) : Store.get (Store.set s t r) t' = Store.get s t' := by
  induction s with
  | nil => simp [Store.set, Store.get, Ne.symm h]
  | cons hd tl ih =>
    obtain ⟨k, x⟩ := hd
    by_cases hk : k = t
    · subst hk
      simp [Store.set, Store.get, Ne.symm h]
    · simp [Store.set, Store.get, hk, ih]

theorem Store.get_erase_self (s : Store) (t : String) :
    Store.get (Store.erase s t) t = none := by
  induction s with
  | nil => simp [Store.erase, Store.get]
  | cons hd tl ih =>
    obtain ⟨k, x⟩ := hd
    by_cases h : k = t
    · simp [Store.erase, h, ih]
    · simp [Store.erase, Store.get, h, ih]

theorem Store.get_erase_ne (s : Store) (t t' : String)
    (h : t' ≠ t) : Store.get (Store.erase s t) t' = Store.get s t' := by
  induction s with
  | nil => simp [Store.erase]
  | cons hd tl ih =>
    obtain ⟨k, x⟩ := hd
    by_cases hk : k = t
    · subst hk
      simp [Store.erase, Store.get, Ne.symm h, ih]
    · simp [Store.erase, Store.get, hk, ih]

/-- Default frontend base URL (`FRONTEND_URL`, server.js line 22: the
environment default is modelled, configuration being external to the core). -/
def FRONTEND_URL : String := "http://localhost:3000"

/-- Token time-to-live in milliseconds: `24 * 60 * 60 * 1000` (server.js
line 42). -/
def ttlMs : Nat := 24 * 60 * 60 * 1000

/-- Outcome of the `POST /api/send-verification` handler: the HTTP response,
the resulting store, the verification URL embedded in the outgoing email
(`none` when validation failed before a mail was built), and the minted
token (`none` when none was minted). -/
structure CreateOutcome where
  response : HttpResponse
  store : Store
  verificationUrl : Option String
  token : Option String
deriving Repr, DecidableEq

/-- Embedding of the `POST /api/send-verification` handler (server.js lines
29-164).  `freshToken` stands for `uuidv4()`, `now` for `Date.now()`, and
`sendErr` for the outcome of `await sgMail.send(msg)`: `none` when the send
succeeds, `some m` when it throws an error whose `.message` is `m`.  The
store write (line 45) precedes the send, so it happens in both cases. -/
def sendVerification (s : Store) (email userId callbackUrl : Option String)
    (freshToken : String) (now : Nat) (sendErr : Option String) :
    CreateOutcome :=
  if strFalsy email then
    { response := ⟨400, [("success", .bool false),
        ("error", .str "Email is required")]⟩,
      store := s, verificationUrl := none, token := none }
  else
    let expiresAt := now + ttlMs
    let s' := Store.set s freshToken
      { email := email.getD "", userId := jsOrNull userId,
        expiresAt := expiresAt, verified := false }
    let url := if strFalsy callbackUrl then
        FRONTEND_URL ++ "/verify?token=" ++ freshToken
      else callbackUrl.getD "" ++ "?token=" ++ freshToken
    match sendErr with
    | none =>
      { response := ⟨200, [("success", .bool true),
          ("message", .str "Verification email sent successfully"),
          ("token", .str freshToken)]⟩,
        store := s', verificationUrl := some url, token := some freshToken }
    | some m =>
      { response := ⟨500, [("success", .bool false),
          ("error", .str "Failed to send verification email"),
          ("details", .str m)]⟩,
        store := s', verificationUrl := some url, token := some freshToken }

/-- Embedding of the `GET /api/verify/:token` handler (server.js lines
170-207): lookup, expiry check with lazy eviction, already-verified check,
then the single `verified := true` write. -/
def verifyToken (s : Store) (token : String) (now : Nat) :
    HttpResponse × Store :=
  match Store.get s token with
  | none =>
      (⟨404, [("success", .bool false),
        ("error", .str "Invalid or not found token")]⟩, s)
  | some td =>
      if td.expiresAt < now then
        (⟨410, [("success", .bool false),
          ("error", .str "Token has expired")]⟩, Store.erase s token)
      else if td.verified then
        (⟨400, [("success", .bool false),
          ("error", .str "Email has already been verified")]⟩, s)
      else
        (⟨200, [("success", .bool true),
          ("message", .str "Email verified successfully!"),
          ("email", .str td.email), ("userId", optJ td.userId)]⟩,
         Store.set s token { td with verified := true })

/-- Embedding of the `POST /api/verify` handler (server.js lines 214-258):
a missing-token guard followed by code identical, line for line, to the
`GET /api/verify/:token` body, which we therefore reuse. -/
def verifyTokenPost (s : Store) (token : Option String) (now : Nat) :
    HttpResponse × Store :=
  if strFalsy token then
    (⟨400, [("success", .bool false),
      ("error", .str "Token is required")]⟩, s)
  else verifyToken s (token.getD "") now

/-- Embedding of the `GET /api/check/:token` handler (server.js lines
264-285): a pure lookup reporting status; the handler contains no store
write, so the store component is returned unchanged in every branch. -/
def checkToken (s : Store) (token : String) (now : Nat) :
    HttpResponse × Store :=
  match Store.get s token with
  | none =>
      (⟨404, [("success", .bool false),
        ("error", .str "Token not found")]⟩, s)
  | some td =>
      (⟨200, [("success", .bool true), ("email", .str td.email),
        ("verified", .bool td.verified),
        ("expired", .bool (decide (td.expiresAt < now))),
        ("expiresAt", .time td.expiresAt)]⟩, s)

/-- Embedding of the `DELETE /api/token/:token` handler (server.js lines
291-300): unconditional delete when present, 404 otherwise. -/
def deleteToken (s : Store) (token : String) : HttpResponse × Store :=
  if Store.hasTok s token then
    (⟨200, [("success", .bool true), ("message", .str "Token removed")]⟩,
     Store.erase s token)
  else
    (⟨404, [("success", .bool false), ("error", .str "Token not found")]⟩, s)

/-- Embedding of the `GET /health` handler (server.js lines 306-312). -/
def health (s : Store) (now : Nat) : HttpResponse × Store :=
  (⟨200, [("status", .str "ok"), ("timestamp", .time now),
    ("tokensInMemory", .nat (Store.size s))]⟩, s)

/-- Recognizer used by the `POST /api/send-verification` handler of the
extended server (src/unnamed/part_000 line 43) to decide that a
`callbackUrl` is already a complete action link:
`callbackUrl.includes('oobCode=') || callbackUrl.includes('mode=verifyEmail')`. -/
def isActionLink (u : String) : Bool :=
  strIncludes u "oobCode=" || strIncludes u "mode=verifyEmail"

/-- Recognizer for a URL hosted on the recognized external auth domain,
as checked by the `POST /api/send-welcome-purchase` handler
(src/unnamed/part_000 line 652): `callbackUrl.includes('firebaseapp.com')`.
The send-verification handler does NOT perform this check. -/
def hostedOnAuthDomain (u : String) : Bool :=
  strIncludes u "firebaseapp.com"

/-- Service-level effect of the extended `POST /api/send-verification`
handler: the verification URL embedded in the outgoing email, the minted
token (`none` in the pass-through branch), and the resulting store. -/
structure CreateEffect where
  verificationUrl : String
  token : Option String
  store : Store
deriving Repr, DecidableEq

/-- Embedding of the decision logic of the extended
`POST /api/send-verification` handler (src/unnamed/part_000 lines 31-63):
`none` when the email is missing/empty (400 path); otherwise, when
`callbackUrl` is truthy and matches `isActionLink`, the URL is passed
through unchanged with no token minted and no store write; otherwise a
fresh token is minted, stored with a 24h expiry, and the URL is built from
`callbackUrl` or the frontend default.  Only the store/URL/token effects
are modelled here; the body of the HTTP response is outside this
definition. -/
def sendVerificationP0 (s : Store) (email userId callbackUrl : Option String)
    (freshToken : String) (now : Nat) : Option CreateEffect :=
  if strFalsy email then none
  else if !strFalsy callbackUrl && isActionLink (callbackUrl.getD "") then
    some { verificationUrl := callbackUrl.getD "", token := none, store := s }
  else
    let s' := Store.set s freshToken
      { email := email.getD "", userId := jsOrNull userId,
        expiresAt := now + ttlMs, verified := false }
    let url := if strFalsy callbackUrl then
        FRONTEND_URL ++ "/verify?token=" ++ freshToken
      else callbackUrl.getD "" ++ "?token=" ++ freshToken
    some { verificationUrl := url, token := some freshToken, store := s' }

/-- Requests of the modelled HTTP surface (the endpoints of server.js). -/
inductive ApiRequest where
  | sendVerif (email userId callbackUrl : Option String)
      (freshToken : String) (now : Nat) (sendErr : Option String)
  | verifyGet (token : String) (now : Nat)
  | verifyPost (token : Option String) (now : Nat)
  | checkTok (token : String) (now : Nat)
  | deleteTok (token : String)
  | healthReq (now : Nat)
deriving Repr, DecidableEq

/-- Dispatch a request to its handler. -/
def handle : ApiRequest → Store → HttpResponse × Store
  | .sendVerif email userId cb ft now sendErr, s =>
      let o := sendVerification s email userId cb ft now sendErr
      (o.response, o.store)
  | .verifyGet t now, s => verifyToken s t now
  | .verifyPost t now, s => verifyTokenPost s t now
  | .checkTok t now, s => checkToken s t now
  | .deleteTok t, s => deleteToken s t
  | .healthReq now, s => health s now

/-- Whether a request is the health check. -/
def ApiRequest.isHealth : ApiRequest → Bool
  | .healthReq _ => true
  | _ => false

/-- Whether a JSON body carries a `success` field. -/
def carriesSuccess (b : JBody) : Bool :=
  b.any (fun p => p.1 == "success")

/-- Whether a response has the uniform error shape
`\x7bsuccess:false, error, details?\x7d`. -/
def errorShape (r : HttpResponse) : Bool :=
  match r.body with
  | [("success", .bool false), ("error", .str _)] => true
  | [("success", .bool false), ("error", .str _), ("details", .str _)] => true
  | _ => false

/-- Service operations on the store, for invariant statements over
operation sequences: token creation, consumption
(`GET /api/verify/:token`), inspection (`GET /api/check/:token`), and
revocation (`DELETE /api/token/:token`). -/
inductive Op where
  | create (email userId callbackUrl : Option String)
      (freshToken : String) (now : Nat) (sendErr : Option String)
  | consume (token : String) (now : Nat)
  | inspect (token : String) (now : Nat)
  | revoke (token : String)
deriving Repr, DecidableEq

/-- Store effect of one operation. -/
def Op.apply : Op → Store → Store
  | .create email userId cb ft now sendErr, s =>
      (sendVerification s email userId cb ft now sendErr).store
  | .consume t now, s => (verifyToken s t now).2
  | .inspect t now, s => (checkToken s t now).2
  | .revoke t, s => (deleteToken s t).2

/-- Freshness side condition of the claim: a `create` uses a token not
currently in the store; other operations are unconstrained. -/
def freshOp : Op → Store → Bool
  | .create _ _ _ ft _ _, s => (Store.get s ft).isNone
  | _, _ => true

/-- Freshness holding at every step of a run. -/
def freshRun : List Op → Store → Bool
  | [], _ => true
  | op :: rest, s => freshOp op s && freshRun rest (op.apply s)

/-- One step respects verified-monotonicity: a record present before and
after either keeps its `verified` flag, or flips it from `false` to `true`
and the operation is a `consume` of exactly that token. -/
def stepOk (op : Op) (s : Store) : Prop :=
  ∀ t r r', Store.get s t = some r → Store.get (Op.apply op s) t = some r' →
    r'.verified = r.verified ∨
    (r.verified = false ∧ r'.verified = true ∧ ∃ now, op = Op.consume t now)

/-- Every step of a run respects verified-monotonicity. -/
def runOk : List Op → Store → Prop
  | [], _ => True
  | op :: rest, s => stepOk op s ∧ runOk rest (op.apply s)

theorem checkToken_snd (s : Store) (t : String) (now : Nat) :
    (checkToken s t now).2 = s := by
  rcases h : Store.get s t with _ | td <;> simp [checkToken, h]

/-- Iterate the `GET /api/check/:token` handler `n` times, threading the
store. -/
def applyChecks : Nat → Store → String → Nat → Store
  | 0, s, _, _ => s
  | n + 1, s, t, now => applyChecks n (checkToken s t now).2 t now

/-- Claim C2: consume is not idempotent.  For a token freshly minted by
create (so its record has `verified = false` and expiry 24h after minting)
and unexpired at both calls, the first consume succeeds with status 200
returning the stored email and userId, and the second consume fails with
AlreadyVerifiedError (status 400). -/
theorem c2_theorem (s : Store) (email userId callbackUrl : Option String)
    (T : String) (mintNow now1 now2 : Nat) (sendErr : Option String)
    (hemail : strFalsy email = false)
    (_hfresh : Store.get s T = none)
    (h1 : now1 ≤ mintNow + ttlMs) (h2 : now2 ≤ mintNow + ttlMs) :
    (sendVerification s email userId callbackUrl T mintNow sendErr).token
      = some T ∧
    (verifyToken (sendVerification s email userId callbackUrl T mintNow
        sendErr).store T now1).1
      = ⟨200, [("success", JVal.bool true),
          ("message", JVal.str "Email verified successfully!"),
          ("email", JVal.str (email.getD "")),
          ("userId", optJ (jsOrNull userId))]⟩ ∧
    (verifyToken (verifyToken (sendVerification s email userId callbackUrl T
        mintNow sendErr).store T now1).2 T now2).1
      = ⟨400, [("success", JVal.bool false),
          ("error", JVal.str "Email has already been verified")]⟩ := by
  have hexp1 : ¬(mintNow + ttlMs < now1) := Nat.not_lt.mpr h1
  have hexp2 : ¬(mintNow + ttlMs < now2) := Nat.not_lt.mpr h2
  refine ⟨?_, ?_, ?_⟩ <;>
    cases sendErr <;>
      simp [sendVerification, hemail, verifyToken, Store.get_set_self,
        hexp1, hexp2]

/-- Claim C2 witness: a concrete run of create-consume-consume. -/
theorem c2_witness :
    strFalsy (some "a@b.com") = false ∧
    Store.get ([] : Store) "tok" = none ∧
    (5 : Nat) ≤ 0 + ttlMs ∧
    (sendVerification [] (some "a@b.com") none none "tok" 0 none).token
      = some "tok" ∧
    (verifyToken (sendVerification [] (some "a@b.com") none none "tok" 0
        none).store "tok" 5).1
      = ⟨200, [("success", JVal.bool true),
          ("message", JVal.str "Email verified successfully!"),
          ("email", JVal.str "a@b.com"), ("userId", JVal.null)]⟩ ∧
    (verifyToken (verifyToken (sendVerification [] (some "a@b.com") none none
        "tok" 0 none).store "tok" 5).2 "tok" 5).1
      = ⟨400, [("success", JVal.bool false),
          ("error", JVal.str "Email has already been verified")]⟩ := by
  have h := c2_theorem [] (some "a@b.com") none none "tok" 0 5 5 none
    rfl rfl (by decide) (by decide)
  exact ⟨rfl, rfl, by decide, h.1, h.2.1, h.2.2⟩

/-- Claim C3: consuming a stored but expired token yields ExpiredError
(410) and evicts the record, after which any check or consume of that
token returns NotFoundError (404). -/
theorem c3_theorem (s : Store) (T : String) (now : Nat) (td : Record)
    (hget : Store.get s T = some td) (hexp : td.expiresAt < now) :
    verifyToken s T now
      = (⟨410, [("success", JVal.bool false),
          ("error", JVal.str "Token has expired")]⟩, Store.erase s T) ∧
    ∀ now2,
      checkToken (Store.erase s T) T now2
        = (⟨404, [("success", JVal.bool false),
            ("error", JVal.str "Token not found")]⟩, Store.erase s T) ∧
      verifyToken (Store.erase s T) T now2
        = (⟨404, [("success", JVal.bool false),
            ("error", JVal.str "Invalid or not found token")]⟩,
           Store.erase s T) := by
  constructor
  · simp [verifyToken, hget, hexp]
  · intro now2
    constructor <;> simp [checkToken, verifyToken, Store.get_erase_self]

/-- Claim C3 witness: a concrete expired record. -/
theorem c3_witness :
    Store.get [("T", ⟨"e@x", none, 10, false⟩)] "T"
      = some ⟨"e@x", none, 10, false⟩ ∧
    (10 : Nat) < 11 ∧
    (verifyToken [("T", ⟨"e@x", none, 10, false⟩)] "T" 11).1.status = 410 ∧
    (checkToken (Store.erase [("T", ⟨"e@x", none, 10, false⟩)] "T") "T"
      12).1.status = 404 ∧
    (verifyToken (Store.erase [("T", ⟨"e@x", none, 10, false⟩)] "T") "T"
      12).1.status = 404 := by
  have h := c3_theorem [("T", ⟨"e@x", none, 10, false⟩)] "T" 11
    ⟨"e@x", none, 10, false⟩ rfl (by decide)
  exact ⟨rfl, by decide, by rw [h.1], by rw [(h.2 12).1], by rw [(h.2 12).2]⟩

/-- Claim C4: create with a non-empty email and no callbackUrl computes
`verificationUrl = FRONTEND_URL ++ "/verify?token=" ++ T` for the fresh
token `T`, returns the raw token in the 200 response, and an immediate
check of `T` reports the same email with `verified = false` and
`expired = false` (the stored expiry being `now + 24h`). -/
theorem c4_theorem (s : Store) (email userId : Option String) (T : String)
    (now : Nat) (hemail : strFalsy email = false)
    (_hfresh : Store.hasTok s T = false) :
    (sendVerification s email userId none T now none).verificationUrl
      = some (FRONTEND_URL ++ "/verify?token=" ++ T) ∧
    (sendVerification s email userId none T now none).token = some T ∧
    (sendVerification s email userId none T now none).response
      = ⟨200, [("success", JVal.bool true),
          ("message", JVal.str "Verification email sent successfully"),
          ("token", JVal.str T)]⟩ ∧
    checkToken (sendVerification s email userId none T now none).store T now
      = (⟨200, [("success", JVal.bool true),
          ("email", JVal.str (email.getD "")),
          ("verified", JVal.bool false), ("expired", JVal.bool false),
          ("expiresAt", JVal.time (now + ttlMs))]⟩,
         (sendVerification s email userId none T now none).store) := by
  have hexp : ¬(now + ttlMs < now) := by omega
  have hcb : strFalsy (none : Option String) = true := rfl
  refine ⟨?_, ?_, ?_, ?_⟩ <;>
    simp [sendVerification, hemail, hcb, checkToken, Store.get_set_self,
      hexp]

/-- Claim C4 witness: a concrete create-then-check round trip. -/
theorem c4_witness :
    strFalsy (some "a@b.com") = false ∧
    Store.hasTok ([] : Store) "tok" = false ∧
    (sendVerification [] (some "a@b.com") none none "tok" 7
        none).verificationUrl
      = some (FRONTEND_URL ++ "/verify?token=" ++ "tok") ∧
    (sendVerification [] (some "a@b.com") none none "tok" 7 none).token
      = some "tok" ∧
    checkToken (sendVerification [] (some "a@b.com") none none "tok" 7
        none).store "tok" 7
      = (⟨200, [("success", JVal.bool true), ("email", JVal.str "a@b.com"),
          ("verified", JVal.bool false), ("expired", JVal.bool false),
          ("expiresAt", JVal.time (7 + ttlMs))]⟩,
         (sendVerification [] (some "a@b.com") none none "tok" 7
           none).store) := by
  have h := c4_theorem [] (some "a@b.com") none "tok" 7 rfl rfl
  exact ⟨rfl, rfl, h.1, h.2.1, h.2.2.2⟩

/-- Claim C5: inspect is read-only.  Any number of check calls leaves the
store literally unchanged, so a consume performed afterwards behaves
exactly as if no check had been performed. -/
theorem c5_theorem (n : Nat) (s : Store) (t : String) (now nowc : Nat) :
    applyChecks n s t now = s ∧
    verifyToken (applyChecks n s t now) t nowc = verifyToken s t nowc := by
  have h : applyChecks n s t now = s := by
    induction n with
    | zero => rfl
    | succ k ih => simpa [applyChecks, checkToken_snd] using ih
  exact ⟨h, by rw [h]⟩

/-- Claim C6: revoke on an unknown token reports not-found (404); on any
stored token it deletes unconditionally (no expiry or verified check, the
store being quantified over all contents), reports success, and subsequent
check or consume of that token returns NotFoundError. -/
theorem c6_theorem (s : Store) (t : String) :
    (Store.hasTok s t = false →
      deleteToken s t
        = (⟨404, [("success", JVal.bool false),
            ("error", JVal.str "Token not found")]⟩, s)) ∧
    (Store.hasTok s t = true →
      deleteToken s t
        = (⟨200, [("success", JVal.bool true),
            ("message", JVal.str "Token removed")]⟩, Store.erase s t) ∧
      ∀ now2,
        (checkToken (Store.erase s t) t now2).1.status = 404 ∧
        (verifyToken (Store.erase s t) t now2).1.status = 404) := by
  constructor
  · intro h
    simp [deleteToken, h]
  · intro h
    refine ⟨by simp [deleteToken, h], fun now2 => ⟨?_, ?_⟩⟩ <;>
      simp [checkToken, verifyToken, Store.get_erase_self]

/-- Claim C6 witness: both branches at concrete stores, including a
verified and expired record being revoked. -/
theorem c6_witness :
    deleteToken [] "t"
      = (⟨404, [("success", JVal.bool false),
          ("error", JVal.str "Token not found")]⟩, []) ∧
    deleteToken [("t", ⟨"e@x", none, 10, true⟩)] "t"
      = (⟨200, [("success", JVal.bool true),
          ("message", JVal.str "Token removed")]⟩,
         Store.erase [("t", ⟨"e@x", none, 10, true⟩)] "t") ∧
    (checkToken (Store.erase [("t", ⟨"e@x", none, 10, true⟩)] "t") "t"
      99).1.status = 404 ∧
    (verifyToken (Store.erase [("t", ⟨"e@x", none, 10, true⟩)] "t") "t"
      99).1.status = 404 := by
  have h0 := (c6_theorem [] "t").1 rfl
  have h1 := (c6_theorem [("t", ⟨"e@x", none, 10, true⟩)] "t").2 rfl
  exact ⟨h0, h1.1, (h1.2 99).1, (h1.2 99).2⟩

/-- Claim C7: when the external mail send fails during the token-minting
create, the response is DeliveryError (500) with the provider message as
details, yet the record stored before the send attempt remains in the
store, and a retried create mints a new token with the same semantics. -/
theorem c7_theorem (s : Store) (email userId callbackUrl : Option String)
    (T : String) (now : Nat) (errMsg : String)
    (hemail : strFalsy email = false) :
    (sendVerification s email userId callbackUrl T now
        (some errMsg)).response
      = ⟨500, [("success", JVal.bool false),
          ("error", JVal.str "Failed to send verification email"),
          ("details", JVal.str errMsg)]⟩ ∧
    Store.get (sendVerification s email userId callbackUrl T now
        (some errMsg)).store T
      = some ⟨email.getD "", jsOrNull userId, now + ttlMs, false⟩ ∧
    ∀ T2 now2 sendErr2,
      (sendVerification (sendVerification s email userId callbackUrl T now
          (some errMsg)).store email userId callbackUrl T2 now2
          sendErr2).token = some T2 ∧
      Store.get (sendVerification (sendVerification s email userId
          callbackUrl T now (some errMsg)).store email userId callbackUrl
          T2 now2 sendErr2).store T2
        = some ⟨email.getD "", jsOrNull userId, now2 + ttlMs, false⟩ := by
  refine ⟨by simp [sendVerification, hemail],
    by simp [sendVerification, hemail, Store.get_set_self], ?_⟩
  intro T2 now2 sendErr2
  cases sendErr2 <;> constructor <;>
    simp [sendVerification, hemail, Store.get_set_self]

/-- Claim C7 witness: a concrete failed send followed by a retry. -/
theorem c7_witness :
    strFalsy (some "a@b.com") = false ∧
    (sendVerification [] (some "a@b.com") none none "tok" 0
        (some "boom")).response
      = ⟨500, [("success", JVal.bool false),
          ("error", JVal.str "Failed to send verification email"),
          ("details", JVal.str "boom")]⟩ ∧
    Store.get (sendVerification [] (some "a@b.com") none none "tok" 0
        (some "boom")).store "tok"
      = some ⟨"a@b.com", none, 0 + ttlMs, false⟩ ∧
    (sendVerification (sendVerification [] (some "a@b.com") none none "tok"
        0 (some "boom")).store (some "a@b.com") none none "tok2" 3
        none).token = some "tok2" ∧
    Store.get (sendVerification (sendVerification [] (some "a@b.com") none
        none "tok" 0 (some "boom")).store (some "a@b.com") none none "tok2"
        3 none).store "tok2"
      = some ⟨"a@b.com", none, 3 + ttlMs, false⟩ := by
  have h := c7_theorem [] (some "a@b.com") none none "tok" 0 "boom" rfl
  exact ⟨rfl, h.1, h.2.1, (h.2.2 "tok2" 3 none).1, (h.2.2 "tok2" 3 none).2⟩

/-- Claim C1 counterexample: a callbackUrl hosted on the recognized
external auth domain (`firebaseapp.com`) but carrying neither `oobCode=`
nor `mode=verifyEmail` is NOT passed through by the send-verification
handler: a token is minted, a store entry is created, and the
verificationUrl is the callbackUrl with `?token=` appended, not the
callbackUrl unchanged. -/
theorem c1_counterexample :
    hostedOnAuthDomain "https://x.firebaseapp.com/a" = true ∧
    isActionLink "https://x.firebaseapp.com/a" = false ∧
    sendVerificationP0 [] (some "a@b.com") none
        (some "https://x.firebaseapp.com/a") "tok1" 0
      = some { verificationUrl := "https://x.firebaseapp.com/a?token=tok1",
               token := some "tok1",
               store := [("tok1", ⟨"a@b.com", none, 0 + ttlMs, false⟩)] } ∧
    ("https://x.firebaseapp.com/a?token=tok1" : String)
      ≠ "https://x.firebaseapp.com/a" := by
  exact ⟨rfl, rfl, rfl, by decide⟩

/-- Claim C1 (amended): for the send-verification handler the pass-through
triggers exactly on a truthy callbackUrl containing `oobCode=` or
`mode=verifyEmail`; such a call returns the callbackUrl unchanged as the
verification URL, mints no token and leaves the store untouched, so
consuming any token not already stored yields NotFoundError (404). -/
theorem c1_theorem (s : Store) (email userId : Option String)
    (cb ft : String) (now : Nat)
    (hemail : strFalsy email = false) (hcb : cb.isEmpty = false)
    (hlink : isActionLink cb = true) :
    sendVerificationP0 s email userId (some cb) ft now
      = some { verificationUrl := cb, token := none, store := s } ∧
    ∀ t2 now2, Store.get s t2 = none →
      verifyToken s t2 now2
        = (⟨404, [("success", JVal.bool false),
            ("error", JVal.str "Invalid or not found token")]⟩, s) := by
  constructor
  · have hf : strFalsy (some cb) = false := hcb
    simp [sendVerificationP0, hemail, hf, hlink]
  · intro t2 now2 h
    simp [verifyToken, h]

/-- Claim C1 witness: a concrete pass-through call and a 404 consume. -/
theorem c1_witness :
    strFalsy (some "a@b.com") = false ∧
    String.isEmpty "x?oobCode=1" = false ∧
    isActionLink "x?oobCode=1" = true ∧
    sendVerificationP0 [] (some "a@b.com") none (some "x?oobCode=1") "t" 0
      = some { verificationUrl := "x?oobCode=1", token := none,
               store := [] } ∧
    verifyToken [] "tokX" 5
      = (⟨404, [("success", JVal.bool false),
          ("error", JVal.str "Invalid or not found token")]⟩, []) := by
  have h := c1_theorem [] (some "a@b.com") none "x?oobCode=1" "t" 0
    rfl rfl rfl
  exact ⟨rfl, rfl, rfl, h.1, h.2 "tokX" 5 rfl⟩

/-- Claim C10: for a stored token both expired and already verified, the
expiry check precedes the verified check in both consume surfaces, so the
result is ExpiredError (410), and the record is evicted. -/
theorem c10_theorem (s : Store) (t : String) (now : Nat) (td : Record)
    (hget : Store.get s t = some td) (hexp : td.expiresAt < now)
    (_hver : td.verified = true) (htok : t.isEmpty = false) :
    verifyToken s t now
      = (⟨410, [("success", JVal.bool false),
          ("error", JVal.str "Token has expired")]⟩, Store.erase s t) ∧
    verifyTokenPost s (some t) now
      = (⟨410, [("success", JVal.bool false),
          ("error", JVal.str "Token has expired")]⟩, Store.erase s t) ∧
    Store.get (Store.erase s t) t = none := by
  have hf : strFalsy (some t) = false := htok
  refine ⟨by simp [verifyToken, hget, hexp], ?_, Store.get_erase_self s t⟩
  simp [verifyTokenPost, hf, verifyToken, hget, hexp]

/-- Claim C10 witness: a concrete record that is expired and verified. -/
theorem c10_witness :
    Store.get [("T", ⟨"e@x", some "u1", 10, true⟩)] "T"
      = some ⟨"e@x", some "u1", 10, true⟩ ∧
    (10 : Nat) < 11 ∧
    (⟨"e@x", some "u1", 10, true⟩ : Record).verified = true ∧
    (verifyToken [("T", ⟨"e@x", some "u1", 10, true⟩)] "T" 11).1.status
      = 410 ∧
    (verifyTokenPost [("T", ⟨"e@x", some "u1", 10, true⟩)] (some "T")
      11).1.status = 410 ∧
    Store.get (Store.erase [("T", ⟨"e@x", some "u1", 10, true⟩)] "T") "T"
      = none := by
  have h := c10_theorem [("T", ⟨"e@x", some "u1", 10, true⟩)] "T" 11
    ⟨"e@x", some "u1", 10, true⟩ rfl (by decide) rfl rfl
  exact ⟨rfl, by decide, rfl, by rw [h.1], by rw [h.2.1], h.2.2⟩

theorem stepOk_of_fresh (op : Op) (s : Store) (h : freshOp op s = true) :
    stepOk op s := by
  intro t r r' hr hr'
  cases op with
  | create email userId cb ft now sendErr =>
    by_cases he : strFalsy email
    · left
      have hs : Op.apply (Op.create email userId cb ft now sendErr) s = s := by
        simp [Op.apply, sendVerification, he]
      rw [hs, hr] at hr'
      cases hr'
      rfl
    · have hft : Store.get s ft = none := by
        simpa [freshOp, Option.isNone_iff_eq_none] using h
      have hne : t ≠ ft := by
        intro hEq
        rw [hEq, hft] at hr
        cases hr
      have hs : Op.apply (Op.create email userId cb ft now sendErr) s
          = Store.set s ft ⟨(email.getD ""), jsOrNull userId, now + ttlMs,
              false⟩ := by
        cases sendErr <;> simp [Op.apply, sendVerification, he]
      left
      rw [hs, Store.get_set_ne _ _ _ _ hne, hr] at hr'
      cases hr'
      rfl
  | consume t' now =>
    rcases hg : Store.get s t' with _ | td
    · left
      have hs : Op.apply (Op.consume t' now) s = s := by
        simp [Op.apply, verifyToken, hg]
      rw [hs, hr] at hr'
      cases hr'
      rfl
    · by_cases hx : td.expiresAt < now
      · have hs : Op.apply (Op.consume t' now) s = Store.erase s t' := by
          simp [Op.apply, verifyToken, hg, hx]
        by_cases hne : t = t'
        · subst hne
          rw [hs, Store.get_erase_self] at hr'
          cases hr'
        · left
          rw [hs, Store.get_erase_ne _ _ _ hne, hr] at hr'
          cases hr'
          rfl
      · by_cases hv : td.verified
        · left
          have hs : Op.apply (Op.consume t' now) s = s := by
            simp [Op.apply, verifyToken, hg, hx, hv]
          rw [hs, hr] at hr'
          cases hr'
          rfl
        · have hs : Op.apply (Op.consume t' now) s
              = Store.set s t' { td with verified := true } := by
            simp [Op.apply, verifyToken, hg, hx, hv]
          by_cases hne : t = t'
          · subst hne
            rw [hs, Store.get_set_self] at hr'
            rw [hg] at hr
            cases hr
            cases hr'
            right
            exact ⟨by simpa using hv, rfl, now, rfl⟩
          · left
            rw [hs, Store.get_set_ne _ _ _ _ hne, hr] at hr'
            cases hr'
            rfl
  | inspect t' now =>
    left
    have hs : Op.apply (Op.inspect t' now) s = s := checkToken_snd s t' now
    rw [hs, hr] at hr'
    cases hr'
    rfl
  | revoke t' =>
    left
    by_cases hh : Store.hasTok s t'
    · have hs : Op.apply (Op.revoke t') s = Store.erase s t' := by
        simp [Op.apply, deleteToken, hh]
      by_cases hne : t = t'
      · subst hne
        rw [hs, Store.get_erase_self] at hr'
        cases hr'
      · rw [hs, Store.get_erase_ne _ _ _ hne, hr] at hr'
        cases hr'
        rfl
    · have hs : Op.apply (Op.revoke t') s = s := by
        simp [Op.apply, deleteToken, hh]
      rw [hs, hr] at hr'
      cases hr'
      rfl

/-- Claim C8: verified is monotone.  In every run of service operations in
which each create uses a token fresh for the store it runs against, every
step preserves each surviving record's verified flag except for the single
false-to-true transition, which only a consume of that very token
performs; in particular no operation ever sets a verified record back to
unverified. -/
theorem c8_theorem (ops : List Op) (s : Store)
    (h : freshRun ops s = true) : runOk ops s := by
  induction ops generalizing s with
  | nil => trivial
  | cons op rest ih =>
    rw [freshRun, Bool.and_eq_true] at h
    exact ⟨stepOk_of_fresh op s h.1, ih _ h.2⟩

/-- Claim C8 witness: a concrete run over a store holding a verified
record: inspect, a consume of a fresh record, a create with a fresh token
and a revoke. -/
theorem c8_witness :
    freshRun [Op.inspect "t" 5, Op.consume "u" 5,
        Op.create (some "c@d.com") none none "w" 5 none, Op.revoke "u"]
      [("t", ⟨"a@b.com", none, 99, true⟩), ("u", ⟨"e@f.com", none, 99,
        false⟩)] = true ∧
    runOk [Op.inspect "t" 5, Op.consume "u" 5,
        Op.create (some "c@d.com") none none "w" 5 none, Op.revoke "u"]
      [("t", ⟨"a@b.com", none, 99, true⟩), ("u", ⟨"e@f.com", none, 99,
        false⟩)] :=
  ⟨by decide, c8_theorem _ _ (by decide)⟩

/-- Claim C9 counterexample: the `GET /health` response carries no
`success` field at all — its body is exactly
`status`, `timestamp`, `tokensInMemory`. -/
theorem c9_counterexample :
    (handle (ApiRequest.healthReq 0) []).1
      = ⟨200, [("status", JVal.str "ok"), ("timestamp", JVal.time 0),
          ("tokensInMemory", JVal.nat 0)]⟩ ∧
    carriesSuccess (handle (ApiRequest.healthReq 0) []).1.body = false :=
  ⟨rfl, rfl⟩

/-- Claim C9 (amended): every response of every endpoint other than
`GET /health` carries a `success` boolean field, and every response with a
4xx/5xx status has the uniform error shape of a `success:false` field, an
`error` string, and optionally a `details` string. -/
theorem c9_theorem (req : ApiRequest) (s : Store)
    (hh : ApiRequest.isHealth req = false) :
    carriesSuccess (handle req s).1.body = true ∧
    (400 ≤ (handle req s).1.status → errorShape (handle req s).1 = true) := by
  cases req with
  | sendVerif email userId cb ft now sendErr =>
    by_cases he : strFalsy email
    · constructor <;>
        simp [handle, sendVerification, he, carriesSuccess, errorShape]
    · cases sendErr with
      | none =>
        constructor
        · simp [handle, sendVerification, he, carriesSuccess]
        · intro habs
          simp [handle, sendVerification, he] at habs
      | some m =>
        constructor <;>
          simp [handle, sendVerification, he, carriesSuccess, errorShape]
  | verifyGet t now =>
    rcases hg : Store.get s t with _ | td
    · constructor <;>
        simp [handle, verifyToken, hg, carriesSuccess, errorShape]
    · by_cases hx : td.expiresAt < now
      · constructor <;>
          simp [handle, verifyToken, hg, hx, carriesSuccess, errorShape]
      · by_cases hv : td.verified
        · constructor <;>
            simp [handle, verifyToken, hg, hx, hv, carriesSuccess,
              errorShape]
        · constructor
          · simp [handle, verifyToken, hg, hx, hv, carriesSuccess]
          · intro habs
            simp [handle, verifyToken, hg, hx, hv] at habs
  | verifyPost t now =>
    by_cases ht : strFalsy t
    · constructor <;>
        simp [handle, verifyTokenPost, ht, carriesSuccess, errorShape]
    · rcases hg : Store.get s (t.getD "") with _ | td
      · constructor <;>
          simp [handle, verifyTokenPost, ht, verifyToken, hg,
            carriesSuccess, errorShape]
      · by_cases hx : td.expiresAt < now
        · constructor <;>
            simp [handle, verifyTokenPost, ht, verifyToken, hg, hx,
              carriesSuccess, errorShape]
        · by_cases hv : td.verified
          · constructor <;>
              simp [handle, verifyTokenPost, ht, verifyToken, hg, hx, hv,
                carriesSuccess, errorShape]
          · constructor
            · simp [handle, verifyTokenPost, ht, verifyToken, hg, hx, hv,
                carriesSuccess]
            · intro habs
              simp [handle, verifyTokenPost, ht, verifyToken, hg, hx,
                hv] at habs
  | checkTok t now =>
    rcases hg : Store.get s t with _ | td
    · constructor <;>
        simp [handle, checkToken, hg, carriesSuccess, errorShape]
    · constructor
      · simp [handle, checkToken, hg, carriesSuccess]
      · intro habs
        simp [handle, checkToken, hg] at habs
  | deleteTok t =>
    by_cases hd : Store.hasTok s t
    · constructor
      · simp [handle, deleteToken, hd, carriesSuccess]
      · intro habs
        simp [handle, deleteToken, hd] at habs
    · constructor <;>
        simp [handle, deleteToken, hd, carriesSuccess, errorShape]
  | healthReq now =>
    simp [ApiRequest.isHealth] at hh

/-- Claim C9 witness: a 404 from the verify endpoint carries the uniform
error shape, and a health-less request carries the success field. -/
theorem c9_witness :
    ApiRequest.isHealth (ApiRequest.verifyGet "t" 0) = false ∧
    carriesSuccess (handle (ApiRequest.verifyGet "t" 0) []).1.body = true ∧
    (400 : Nat) ≤ (handle (ApiRequest.verifyGet "t" 0) []).1.status ∧
    errorShape (handle (ApiRequest.verifyGet "t" 0) []).1 = true := by
  have h := c9_theorem (ApiRequest.verifyGet "t" 0) [] rfl
  exact ⟨rfl, h.1, by decide, h.2 (by decide)⟩

end EmailApi
